import Mathlib

/-!
Shallow embedding of the configuration-resolution pipeline and the input
validators of the koa-initialization CLI (src/config/manager.ts and
src/utils/validator.ts), together with theorems settling the frozen claims
about them.

JavaScript objects with optional keys are modelled as Lean structures whose
fields are `Option`-valued; an absent key is `none`. JavaScript truthiness on
strings (`""` falsy) and numbers (`0` falsy) is modelled explicitly where the
source relies on it (`x || default`). String operations stay on `String` /
`List Char`, numbers on `Int`.
-/

namespace KoaInit

/-- JS `a || d` for an optional number field: `undefined` and `0` are falsy. -/
def jsOrInt (v : Option Int) (d : Int) : Int :=
  match v with
  | some n => if n = 0 then d else n
  | none => d

/-- JS `a || d` for an optional string field: `undefined` and `""` are falsy. -/
def jsOrStr (v : Option String) (d : String) : String :=
  match v with
  | some s => if s = "" then d else s
  | none => d

/-- Object-spread resolution for one key: the spread-later (higher priority)
value `s` wins when present, otherwise the earlier value `t` survives. -/
def pick {α : Type} (s t : Option α) : Option α :=
  match s with
  | some v => some v
  | none => t

/-- `FeatureSet` from src/types: all six toggles present (the fully resolved
shape). -/
structure FeatureSet where
  logging : Bool
  cors : Bool
  helmet : Bool
  rateLimit : Bool
  swagger : Bool
  redis : Bool
deriving Repr, DecidableEq

/-- A runtime features object in which any of the six keys may be absent
(what the object spreads in `mergeConfig` actually operate on). -/
structure PartialFeatureSet where
  logging : Option Bool
  cors : Option Bool
  helmet : Option Bool
  rateLimit : Option Bool
  swagger : Option Bool
  redis : Option Bool
deriving Repr, DecidableEq

/-- A runtime database-config object with possibly-absent keys
(`DatabaseConfig` has `username`/`password` optional already; the other keys
may be missing in a raw fragment). -/
structure PartialDatabaseConfig where
  type : Option String
  host : Option String
  port : Option Int
  database : Option String
  username : Option String
  password : Option String
deriving Repr, DecidableEq

/-- A runtime cache-config object with possibly-absent keys. -/
structure PartialCacheConfig where
  type : Option String
  host : Option String
  port : Option Int
  password : Option String
  database : Option Int
deriving Repr, DecidableEq

/-- A runtime authentication-config object with possibly-absent keys. -/
structure PartialAuthConfig where
  type : Option String
  secret : Option String
  expiresIn : Option String
deriving Repr, DecidableEq

/-- `Partial<ProjectConfiguration>`: every field optional, nested objects in
their runtime (possibly sub-key-partial) shape. -/
structure PartialProjectConfiguration where
  name : Option String
  template : Option String
  features : Option PartialFeatureSet
  database : Option PartialDatabaseConfig
  cache : Option PartialCacheConfig
  authentication : Option PartialAuthConfig
  packageManager : Option String
  typescript : Option Bool
deriving Repr, DecidableEq

/-- The fully resolved `ProjectConfiguration` returned by
`mergeConfigurations`: `name`, `template`, `features`, `packageManager` and
`typescript` are always set; the three nested configs are attached only when
present after the merge, in whatever sub-key shape the merge produced. -/
structure ProjectConfiguration where
  name : String
  template : String
  features : FeatureSet
  database : Option PartialDatabaseConfig
  cache : Option PartialCacheConfig
  authentication : Option PartialAuthConfig
  packageManager : String
  typescript : Bool
deriving Repr, DecidableEq

/-- `DatabaseConfig` from src/types (the shape interactive prompts build). -/
structure DatabaseConfig where
  type : String
  host : String
  port : Int
  database : String
  username : Option String
  password : Option String
deriving Repr, DecidableEq

/-- `CacheConfig` from src/types. -/
structure CacheConfig where
  type : String
  host : String
  port : Int
  password : Option String
  database : Option Int
deriving Repr, DecidableEq

/-- `AuthConfig` from src/types. -/
structure AuthConfig where
  type : String
  secret : Option String
  expiresIn : Option String
deriving Repr, DecidableEq

/-- The `database` entry of `ConfigFileFormat`: every key optional. -/
structure ConfigFileDatabase where
  type : Option String
  host : Option String
  port : Option Int
  database : Option String
deriving Repr, DecidableEq

/-- The `cache` entry of `ConfigFileFormat`. -/
structure ConfigFileCache where
  type : Option String
  host : Option String
  port : Option Int
  database : Option Int
deriving Repr, DecidableEq

/-- The `authentication` entry of `ConfigFileFormat`. -/
structure ConfigFileAuth where
  type : Option String
  expiresIn : Option String
deriving Repr, DecidableEq

/-- `ConfigFileFormat` from src/config/manager.ts: the raw parsed config
file. -/
structure ConfigFileFormat where
  template : Option String
  typescript : Option Bool
  packageManager : Option String
  features : Option PartialFeatureSet
  database : Option ConfigFileDatabase
  cache : Option ConfigFileCache
  authentication : Option ConfigFileAuth
  installDependencies : Option Bool
  initGit : Option Bool
deriving Repr, DecidableEq

/-- `CommandLineOptions` from src/config/manager.ts. -/
structure CommandLineOptions where
  template : Option String
  config : Option String
  skipInstall : Option Bool
  packageManager : Option String
  typescript : Option Bool
  git : Option Bool
  force : Option Bool
deriving Repr, DecidableEq

/-- `PromptAnswers` from src/prompts: the interactive answers object. -/
structure PromptAnswers where
  template : String
  features : FeatureSet
  database : Option DatabaseConfig
  cache : Option CacheConfig
  authentication : Option AuthConfig
  typescript : Bool
  packageManager : String
  installDependencies : Bool
  initGit : Bool
deriving Repr, DecidableEq

/-- `ConfigurationPriority` from src/types. -/
structure ConfigurationPriority where
  commandLine : PartialProjectConfiguration
  configFile : PartialProjectConfiguration
  interactive : PartialProjectConfiguration
deriving Repr, DecidableEq

/-- The empty partial configuration (`{}` in the source). -/
def emptyPartialConfig : PartialProjectConfiguration :=
  ⟨none, none, none, none, none, none, none, none⟩

/-- The empty features object (spread of `undefined` contributes nothing). -/
def emptyPartialFeatureSet : PartialFeatureSet :=
  ⟨none, none, none, none, none, none⟩

/-- The empty database object. -/
def emptyPartialDatabase : PartialDatabaseConfig :=
  ⟨none, none, none, none, none, none⟩

/-- The empty cache object. -/
def emptyPartialCache : PartialCacheConfig :=
  ⟨none, none, none, none, none⟩

/-- The empty authentication object. -/
def emptyPartialAuth : PartialAuthConfig :=
  ⟨none, none, none⟩

/-- `target.features = { ...target.features, ...sourceValue }`: sub-keys the
source defines win, sibling sub-keys of the target survive; a `target` of
`undefined` spreads as the empty object. -/
def mergeFeaturesObj (t : Option PartialFeatureSet) (s : PartialFeatureSet) :
    PartialFeatureSet :=
  let tf := t.getD emptyPartialFeatureSet
  { logging := pick s.logging tf.logging
    cors := pick s.cors tf.cors
    helmet := pick s.helmet tf.helmet
    rateLimit := pick s.rateLimit tf.rateLimit
    swagger := pick s.swagger tf.swagger
    redis := pick s.redis tf.redis }

/-- `target.database = { ...target.database, ...sourceValue }`. -/
def mergeDatabaseObj (t : Option PartialDatabaseConfig)
    (s : PartialDatabaseConfig) : PartialDatabaseConfig :=
  let td := t.getD emptyPartialDatabase
  { type := pick s.type td.type
    host := pick s.host td.host
    port := pick s.port td.port
    database := pick s.database td.database
    username := pick s.username td.username
    password := pick s.password td.password }

/-- `target.cache = { ...target.cache, ...sourceValue }`. -/
def mergeCacheObj (t : Option PartialCacheConfig) (s : PartialCacheConfig) :
    PartialCacheConfig :=
  let tc := t.getD emptyPartialCache
  { type := pick s.type tc.type
    host := pick s.host tc.host
    port := pick s.port tc.port
    password := pick s.password tc.password
    database := pick s.database tc.database }

/-- `target.authentication = { ...target.authentication, ...sourceValue }`. -/
def mergeAuthObj (t : Option PartialAuthConfig) (s : PartialAuthConfig) :
    PartialAuthConfig :=
  let ta := t.getD emptyPartialAuth
  { type := pick s.type ta.type
    secret := pick s.secret ta.secret
    expiresIn := pick s.expiresIn ta.expiresIn }

/-- One `key === 'features'` step of `mergeConfig`: when the source defines
the field, spread-merge it over the target's; otherwise leave the target. -/
def optMergeFeatures (t s : Option PartialFeatureSet) :
    Option PartialFeatureSet :=
  match s with
  | some f => some (mergeFeaturesObj t f)
  | none => t

/-- One `key === 'database'` step of `mergeConfig`. -/
def optMergeDatabase (t s : Option PartialDatabaseConfig) :
    Option PartialDatabaseConfig :=
  match s with
  | some d => some (mergeDatabaseObj t d)
  | none => t

/-- One `key === 'cache'` step of `mergeConfig`. -/
def optMergeCache (t s : Option PartialCacheConfig) :
    Option PartialCacheConfig :=
  match s with
  | some c => some (mergeCacheObj t c)
  | none => t

/-- One `key === 'authentication'` step of `mergeConfig`. -/
def optMergeAuth (t s : Option PartialAuthConfig) : Option PartialAuthConfig :=
  match s with
  | some a => some (mergeAuthObj t a)
  | none => t

/-- `ConfigurationManager.mergeConfig(target, source)` as a function of the
target: every defined source key overwrites the target's key, except the four
nested-object fields, which are object-spread merged per sub-key. -/
def mergeConfig (target source : PartialProjectConfiguration) :
    PartialProjectConfiguration :=
  { name := pick source.name target.name
    template := pick source.template target.template
    features := optMergeFeatures target.features source.features
    database := optMergeDatabase target.database source.database
    cache := optMergeCache target.cache source.cache
    authentication := optMergeAuth target.authentication source.authentication
    packageManager := pick source.packageManager target.packageManager
    typescript := pick source.typescript target.typescript }

/-- `ConfigurationManager.applyConfigurationPriority`: fold the three sources
into an initially empty result, lowest priority first (interactive, then
config file, then command line). -/
def applyConfigurationPriority (configs : ConfigurationPriority) :
    PartialProjectConfiguration :=
  mergeConfig (mergeConfig (mergeConfig emptyPartialConfig configs.interactive)
    configs.configFile) configs.commandLine

/-- `ConfigurationManager.convertConfigFileFormat`: normalize a parsed config
file into a partial configuration. Top-level unset fields are omitted
(`template`/`packageManager` also when `""`, which is falsy); a nested object
that is present has its unset sub-keys filled with defaults. -/
def convertConfigFileFormat (configData : ConfigFileFormat) :
    PartialProjectConfiguration :=
  { name := none
    template :=
      match configData.template with
      | some t => if t = "" then none else some t
      | none => none
    typescript := configData.typescript
    packageManager :=
      match configData.packageManager with
      | some p => if p = "" then none else some p
      | none => none
    features :=
      match configData.features with
      | some f =>
        some { logging := some (f.logging.getD true)
               cors := some (f.cors.getD true)
               helmet := some (f.helmet.getD true)
               rateLimit := some (f.rateLimit.getD false)
               swagger := some (f.swagger.getD false)
               redis := some (f.redis.getD false) }
      | none => none
    database :=
      match configData.database with
      | some d =>
        some { type := some (jsOrStr d.type "mysql")
               host := some (jsOrStr d.host "localhost")
               port := some (jsOrInt d.port 3306)
               database := some (jsOrStr d.database "myapp")
               username := none
               password := none }
      | none => none
    cache :=
      match configData.cache with
      | some c =>
        some { type := some "redis"
               host := some (jsOrStr c.host "localhost")
               port := some (jsOrInt c.port 6379)
               password := none
               database := some (jsOrInt c.database 0) }
      | none => none
    authentication :=
      match configData.authentication with
      | some a =>
        some { type := some (jsOrStr a.type "jwt")
               secret := none
               expiresIn := some (jsOrStr a.expiresIn "7d") }
      | none => none }

/-- `ConfigurationManager.convertCommandLineOptions`: only `template`,
`typescript` and `packageManager` are ever carried over (`template` and
`packageManager` behind a truthiness guard); `git` is inspected but sets
nothing. -/
def convertCommandLineOptions (options : CommandLineOptions) :
    PartialProjectConfiguration :=
  { name := none
    template :=
      match options.template with
      | some t => if t = "" then none else some t
      | none => none
    typescript := options.typescript
    packageManager :=
      match options.packageManager with
      | some p => if p = "" then none else some p
      | none => none
    features := none
    database := none
    cache := none
    authentication := none }

/-- Inject a resolved `FeatureSet` into its runtime object shape. -/
def featuresToPartial (f : FeatureSet) : PartialFeatureSet :=
  ⟨some f.logging, some f.cors, some f.helmet, some f.rateLimit,
    some f.swagger, some f.redis⟩

/-- Inject a `DatabaseConfig` into its runtime object shape. -/
def databaseToPartial (d : DatabaseConfig) : PartialDatabaseConfig :=
  ⟨some d.type, some d.host, some d.port, some d.database, d.username,
    d.password⟩

/-- Inject a `CacheConfig` into its runtime object shape. -/
def cacheToPartial (c : CacheConfig) : PartialCacheConfig :=
  ⟨some c.type, some c.host, some c.port, c.password, c.database⟩

/-- Inject an `AuthConfig` into its runtime object shape. -/
def authToPartial (a : AuthConfig) : PartialAuthConfig :=
  ⟨some a.type, a.secret, a.expiresIn⟩

/-- `ConfigurationManager.convertInteractiveAnswers`: the four always-asked
answers are set unconditionally; the three optional configs only when the
answers carry them. -/
def convertInteractiveAnswers (answers : PromptAnswers) :
    PartialProjectConfiguration :=
  { name := none
    template := some answers.template
    features := some (featuresToPartial answers.features)
    typescript := some answers.typescript
    packageManager := some answers.packageManager
    database := answers.database.map databaseToPartial
    cache := answers.cache.map cacheToPartial
    authentication := answers.authentication.map authToPartial }

/-- The three-way merged partial configuration built inside
`mergeConfigurations` (step 4). `configFileData` stands for the parsed
config file when one was loaded, `interactiveAnswers` for the prompt answers
when prompts ran. -/
def mergedOf (commandLineOptions : CommandLineOptions)
    (configFileData : Option ConfigFileFormat)
    (interactiveAnswers : Option PromptAnswers) : PartialProjectConfiguration :=
  applyConfigurationPriority
    { commandLine := convertCommandLineOptions commandLineOptions
      configFile :=
        match configFileData with
        | some d => convertConfigFileFormat d
        | none => emptyPartialConfig
      interactive :=
        match interactiveAnswers with
        | some a => convertInteractiveAnswers a
        | none => emptyPartialConfig }

/-- `ConfigurationManager.mergeConfigurations`: merge the three sources by
priority, then fill defaults (`template || 'basic'`,
`packageManager || 'pnpm'`, `typescript !== undefined ? ... : true`, the
feature defaults spread-overridden by merged features) and attach the three
optional configs only when the merge produced them. -/
def mergeConfigurations (projectName : String)
    (commandLineOptions : CommandLineOptions)
    (configFileData : Option ConfigFileFormat)
    (interactiveAnswers : Option PromptAnswers) : ProjectConfiguration :=
  let mergedConfig := mergedOf commandLineOptions configFileData
    interactiveAnswers
  { name := projectName
    template := jsOrStr mergedConfig.template "basic"
    features :=
      { logging := (mergedConfig.features.bind PartialFeatureSet.logging).getD
          true
        cors := (mergedConfig.features.bind PartialFeatureSet.cors).getD true
        helmet := (mergedConfig.features.bind PartialFeatureSet.helmet).getD
          true
        rateLimit :=
          (mergedConfig.features.bind PartialFeatureSet.rateLimit).getD false
        swagger := (mergedConfig.features.bind PartialFeatureSet.swagger).getD
          false
        redis := (mergedConfig.features.bind PartialFeatureSet.redis).getD
          false }
    packageManager := jsOrStr mergedConfig.packageManager "pnpm"
    typescript := mergedConfig.typescript.getD true
    database := mergedConfig.database
    cache := mergedConfig.cache
    authentication := mergedConfig.authentication }

/-- A whitespace character in the sense of JS `String.prototype.trim`
(restricted to the ASCII range the tool's inputs use). -/
def isJsWhitespace (c : Char) : Bool :=
  c == ' ' || c == '\t' || c == '\n' || c == '\r'

/-- JS `s.trim()` on the character list: drop whitespace from both ends. -/
def jsTrimList (cs : List Char) : List Char :=
  ((cs.dropWhile isJsWhitespace).reverse.dropWhile isJsWhitespace).reverse

/-- JS `s.trim()`. -/
def jsTrim (s : String) : String :=
  String.mk (jsTrimList s.data)

/-- JS `s.toLowerCase()` on one character (ASCII range). -/
def jsToLowerChar (c : Char) : Char :=
  if decide ('A' ≤ c) && decide (c ≤ 'Z') then Char.ofNat (c.toNat + 32) else c

/-- One independently collected validation segment: `[]` when the check
passes, one error string when it fails. -/
def checkList (ok : Bool) (msg : String) : List String :=
  if ok then [] else [msg]

/-- JS `array.includes(x)` where `x` may be `undefined`. -/
def optIncludes (l : List String) (v : Option String) : Bool :=
  match v with
  | some s => l.contains s
  | none => false

/-- JS `port < 1 || port > 65535` where `port` may be `undefined` (both
comparisons are false on `undefined`). -/
def jsPortBad (p : Option Int) : Bool :=
  match p with
  | some x => decide (x < 1) || decide (x > 65535)
  | none => false

/-- Render an optional string the way a JS template literal does. -/
def showOptStr (v : Option String) : String :=
  match v with
  | some s => s
  | none => "undefined"

/-- Render an optional number the way a JS template literal does. -/
def showOptInt (v : Option Int) : String :=
  match v with
  | some n => toString n
  | none => "undefined"

def validTemplates : List String := ["basic", "api", "fullstack"]

def validPackageManagers : List String := ["npm", "yarn", "pnpm"]

def validDatabaseTypes : List String := ["mysql", "postgresql", "mongodb"]

def validAuthTypes : List String := ["jwt", "session"]

/-- The result shape of `validateConfiguration`. -/
structure ConfigValidationResult where
  valid : Bool
  errors : List String
deriving Repr, DecidableEq

/-- The `if (config.database)` block of `validateConfiguration`: type must
be a known database type and the port must lie in [1, 65535] (an absent port
raises no error, since both JS comparisons are false on `undefined`). -/
def databaseErrors (db : Option PartialDatabaseConfig) : List String :=
  match db with
  | some d =>
    checkList (optIncludes validDatabaseTypes d.type)
      ("无效的数据库类型: " ++ showOptStr d.type ++ "。有效选项: " ++
        String.intercalate ", " validDatabaseTypes) ++
    checkList (!jsPortBad d.port)
      ("无效的数据库端口: " ++ showOptInt d.port ++ "。端口范围: 1-65535")
  | none => []

/-- The `if (config.cache)` block of `validateConfiguration`. -/
def cacheErrors (ca : Option PartialCacheConfig) : List String :=
  match ca with
  | some c =>
    checkList (decide (c.type = some "redis"))
      ("无效的缓存类型: " ++ showOptStr c.type ++ "。当前仅支持: redis") ++
    checkList (!jsPortBad c.port)
      ("无效的缓存端口: " ++ showOptInt c.port ++ "。端口范围: 1-65535")
  | none => []

/-- The `if (config.authentication)` block of `validateConfiguration`. -/
def authErrors (au : Option PartialAuthConfig) : List String :=
  match au with
  | some a =>
    checkList (optIncludes validAuthTypes a.type)
      ("无效的认证类型: " ++ showOptStr a.type ++ "。有效选项: " ++
        String.intercalate ", " validAuthTypes)
  | none => []

/-- `ConfigurationManager.validateConfiguration`: every check runs, each
violation appends one error string, and the result is valid exactly when no
error was collected. -/
def validateConfiguration (config : ProjectConfiguration) :
    ConfigValidationResult :=
  let errors :=
    checkList (!(jsTrimList config.name.data).isEmpty) "项目名称不能为空" ++
    checkList (validTemplates.contains config.template)
      ("无效的模板类型: " ++ config.template ++ "。有效选项: " ++
        String.intercalate ", " validTemplates) ++
    checkList (validPackageManagers.contains config.packageManager)
      ("无效的包管理器: " ++ config.packageManager ++ "。有效选项: " ++
        String.intercalate ", " validPackageManagers) ++
    databaseErrors config.database ++
    cacheErrors config.cache ++
    authErrors config.authentication
  { valid := errors.isEmpty, errors := errors }

/-- A structured name-validation error or warning (`type` is the stable
code, `message` the human text). -/
structure ValidationError where
  type : String
  message : String
deriving Repr, DecidableEq

/-- The result shape of `validateProjectName`. -/
structure ValidationResult where
  valid : Bool
  errors : List ValidationError
  warnings : List ValidationError
deriving Repr, DecidableEq

/-- A character of the case-insensitive name class `[a-z0-9._-]/i`,
lowercase part. -/
def isLowerNameChar (c : Char) : Bool :=
  (decide ('a' ≤ c) && decide (c ≤ 'z')) ||
  (decide ('0' ≤ c) && decide (c ≤ '9')) ||
  c == '.' || c == '_' || c == '-'

/-- A character of the full case-insensitive class `[a-zA-Z0-9._-]`. -/
def isNameCharCI (c : Char) : Bool :=
  isLowerNameChar c || (decide ('A' ≤ c) && decide (c ≤ 'Z'))

/-- `/^[._]/` on the trimmed name. -/
def startsWithDotOrUnderscore (cs : List Char) : Bool :=
  match cs with
  | c :: _ => c == '.' || c == '_'
  | [] => false

/-- `/[.-]$/` on the trimmed name. -/
def endsWithDotOrDash (cs : List Char) : Bool :=
  match cs.getLast? with
  | some c => c == '.' || c == '-'
  | none => false

/-- A `.` or `-` (the separators of the consecutive-separator rule). -/
def isDotOrDash (c : Char) : Bool :=
  c == '.' || c == '-'

/-- `/[.-]{2,}/`: some two adjacent characters are both `.`/`-`. -/
def hasConsecutiveSeparators : List Char → Bool
  | a :: b :: rest =>
    (isDotOrDash a && isDotOrDash b) || hasConsecutiveSeparators (b :: rest)
  | _ => false

/-- The reserved-name list of `validateProjectName`. -/
def reservedNames : List String :=
  ["node_modules", "favicon.ico", "package.json", "package-lock.json",
   "yarn.lock", "pnpm-lock.yaml", ".git", ".gitignore", ".env",
   "con", "prn", "aux", "nul",
   "com1", "com2", "com3", "com4", "com5", "com6", "com7", "com8", "com9",
   "lpt1", "lpt2", "lpt3", "lpt4", "lpt5", "lpt6", "lpt7", "lpt8", "lpt9"]

/-- `/^@([a-z0-9._-]+)\x2f([a-z0-9._-]+)$/i`: an `@`, then exactly two
nonempty class-only segments separated by one slash. -/
def scopeMatch (cs : List Char) : Bool :=
  match cs with
  | '@' :: rest =>
    match rest.splitOn '/' with
    | [s1, s2] =>
      !s1.isEmpty && !s2.isEmpty && s1.all isNameCharCI && s2.all isNameCharCI
    | _ => false
  | _ => false

/-- One `if (bad) errors.push(e)` step of the name validator. -/
def nameCheck (bad : Bool) (e : ValidationError) : List ValidationError :=
  if bad then [e] else []

/-- `InputValidator.validateProjectName`: the empty/whitespace-only case
returns immediately; every other rule is checked independently and appends
its error (or, for uppercase, its warning); valid iff no error. -/
def validateProjectName (name : String) : ValidationResult :=
  let cs := jsTrimList name.data
  if cs.isEmpty then
    { valid := false
      errors := [⟨"EMPTY_NAME", "项目名称不能为空"⟩]
      warnings := [] }
  else
    let t := String.mk cs
    let errors :=
      nameCheck (decide (cs.length > 214))
        ⟨"NAME_TOO_LONG", "项目名称不能超过 214 个字符"⟩ ++
      nameCheck (decide (cs.length < 1))
        ⟨"NAME_TOO_SHORT", "项目名称至少需要 1 个字符"⟩ ++
      nameCheck (!cs.all isNameCharCI)
        ⟨"INVALID_CHARACTERS",
          "项目名称只能包含字母、数字、点号(.)、下划线(_)和连字符(-)"⟩ ++
      nameCheck (startsWithDotOrUnderscore cs)
        ⟨"INVALID_START", "项目名称不能以点号(.)或下划线(_)开头"⟩ ++
      nameCheck (endsWithDotOrDash cs)
        ⟨"INVALID_END", "项目名称不能以点号(.)或连字符(-)结尾"⟩ ++
      nameCheck (reservedNames.contains (String.mk (cs.map jsToLowerChar)))
        ⟨"RESERVED_NAME", "\"" ++ t ++ "\" 是保留名称，不能用作项目名称"⟩ ++
      nameCheck (cs.head? == some '@' && !scopeMatch cs)
        ⟨"INVALID_SCOPE_FORMAT", "npm 作用域格式应为 @scope/package-name"⟩ ++
      nameCheck (hasConsecutiveSeparators cs)
        ⟨"CONSECUTIVE_SEPARATORS", "项目名称不能包含连续的点号或连字符"⟩
    let warnings :=
      nameCheck (cs.any (fun c => decide ('A' ≤ c) && decide (c ≤ 'Z')))
        ⟨"UPPERCASE_WARNING", "建议使用小写字母作为项目名称"⟩
    { valid := errors.isEmpty, errors := errors, warnings := warnings }

/-- A character of the suggestion class `[a-z0-9._-]` (lowercase only: the
input was lowercased first). -/
def isSuggestChar (c : Char) : Bool :=
  (decide ('a' ≤ c) && decide (c ≤ 'z')) ||
  (decide ('0' ≤ c) && decide (c ≤ '9')) ||
  c == '.' || c == '_' || c == '-'

/-- A separator of the collapse step: `.`, `_` or `-`. -/
def isSeparatorChar (c : Char) : Bool :=
  c == '.' || c == '_' || c == '-'

/-- Squash each run of dashes to a single dash. -/
def squashDashes : List Char → List Char
  | [] => []
  | [c] => [c]
  | a :: b :: rest =>
    if a == '-' && b == '-' then squashDashes (b :: rest)
    else a :: squashDashes (b :: rest)

/-- `replace(/[._-]+/g, '-')`: every maximal run of separators becomes one
dash (mapping each separator to a dash, then squashing dash runs). -/
def collapseSeparators (cs : List Char) : List Char :=
  squashDashes (cs.map (fun c => if isSeparatorChar c then '-' else c))

/-- `/^[0-9]/`. -/
def startsWithDigit (cs : List Char) : Bool :=
  match cs with
  | c :: _ => decide ('0' ≤ c) && decide (c ≤ '9')
  | [] => false

/-- `InputValidator.suggestValidName`: lowercase the trimmed input, replace
characters outside the class with `-`, strip leading `.`/`_`, strip trailing
`.`/`-`, collapse separator runs to one `-`, fall back to `my-koa-app` when
empty, and prefix `app-` when the result starts with a digit. -/
def suggestValidName (invalidName : String) : String :=
  let l0 := (jsTrimList invalidName.data).map jsToLowerChar
  let l1 := l0.map (fun c => if isSuggestChar c then c else '-')
  let l2 := l1.dropWhile (fun c => c == '.' || c == '_')
  let l3 := (l2.reverse.dropWhile isDotOrDash).reverse
  let l4 := collapseSeparators l3
  let s := String.mk l4
  let s := if s = "" then "my-koa-app" else s
  if startsWithDigit s.data then "app-" ++ s else s

/-- Whether some collected name-validation entry carries the given code. -/
def errHasType (l : List ValidationError) (ty : String) : Bool :=
  l.any (fun e => e.type == ty)

/-- The spec's port rule: a present port lying in [1, 65535]. -/
def portInRange (p : Option Int) : Bool :=
  match p with
  | some x => decide (1 ≤ x) && decide (x ≤ 65535)
  | none => false

/-- Spec-side database rule: if configured, a known type and a port in
range. -/
def dbSpecOk (db : Option PartialDatabaseConfig) : Bool :=
  match db with
  | some d => optIncludes validDatabaseTypes d.type && portInRange d.port
  | none => true

/-- Spec-side cache rule: if configured, type `redis` and a port in range. -/
def cacheSpecOk (ca : Option PartialCacheConfig) : Bool :=
  match ca with
  | some c => decide (c.type = some "redis") && portInRange c.port
  | none => true

/-- Spec-side authentication rule: if configured, a known type. -/
def authSpecOk (au : Option PartialAuthConfig) : Bool :=
  match au with
  | some a => optIncludes validAuthTypes a.type
  | none => true

/-- The spec's `validateConfiguration` contract as one predicate: name
non-empty, template and package manager in their enumerations, and the three
optional configs well-formed when present. -/
def specValidConfig (c : ProjectConfiguration) : Bool :=
  !(jsTrimList c.name.data).isEmpty &&
  validTemplates.contains c.template &&
  validPackageManagers.contains c.packageManager &&
  dbSpecOk c.database && cacheSpecOk c.cache && authSpecOk c.authentication

/-- The port sub-key of the database block, when attached. -/
def dbPortPresent (db : Option PartialDatabaseConfig) : Bool :=
  match db with
  | some d => d.port.isSome
  | none => true

/-- The port sub-key of the cache block, when attached. -/
def cachePortPresent (ca : Option PartialCacheConfig) : Bool :=
  match ca with
  | some c => c.port.isSome
  | none => true

/-- The declared TypeScript shape of `ProjectConfiguration` makes `port`
mandatory in `DatabaseConfig` and `CacheConfig`; this predicate carves out
exactly those runtime configurations. -/
def portsPresent (c : ProjectConfiguration) : Bool :=
  dbPortPresent c.database && cachePortPresent c.cache

/-- The spec's example config: well-formed except `database.port = 99999`. -/
def badPortConfig : ProjectConfiguration :=
  { name := "my-app"
    template := "basic"
    features := ⟨true, true, true, false, false, false⟩
    database := some ⟨some "mysql", some "localhost", some 99999,
      some "myapp", none, none⟩
    cache := none
    authentication := none
    packageManager := "pnpm"
    typescript := true }

/-- A config violating three independent rules at once (unknown template,
unknown package manager, database port 0). -/
def multiInvalidConfig : ProjectConfiguration :=
  { name := "my-app"
    template := "vue"
    features := ⟨true, true, true, false, false, false⟩
    database := some ⟨some "mysql", some "localhost", some 0, some "myapp",
      none, none⟩
    cache := none
    authentication := none
    packageManager := "cargo"
    typescript := true }

/-! ### Basic lemmas about the merge helpers -/

theorem pick_none {α : Type} (a : Option α) : pick a none = a := by
  cases a <;> rfl

theorem optMergeFeatures_bind_logging (a b : Option PartialFeatureSet) :
    (optMergeFeatures a b).bind PartialFeatureSet.logging =
      pick (b.bind PartialFeatureSet.logging)
        (a.bind PartialFeatureSet.logging) := by
  cases a <;> cases b <;> rfl

theorem optMergeFeatures_bind_cors (a b : Option PartialFeatureSet) :
    (optMergeFeatures a b).bind PartialFeatureSet.cors =
      pick (b.bind PartialFeatureSet.cors) (a.bind PartialFeatureSet.cors) := by
  cases a <;> cases b <;> rfl

theorem optMergeFeatures_bind_helmet (a b : Option PartialFeatureSet) :
    (optMergeFeatures a b).bind PartialFeatureSet.helmet =
      pick (b.bind PartialFeatureSet.helmet)
        (a.bind PartialFeatureSet.helmet) := by
  cases a <;> cases b <;> rfl

theorem optMergeFeatures_bind_rateLimit (a b : Option PartialFeatureSet) :
    (optMergeFeatures a b).bind PartialFeatureSet.rateLimit =
      pick (b.bind PartialFeatureSet.rateLimit)
        (a.bind PartialFeatureSet.rateLimit) := by
  cases a <;> cases b <;> rfl

theorem optMergeFeatures_bind_swagger (a b : Option PartialFeatureSet) :
    (optMergeFeatures a b).bind PartialFeatureSet.swagger =
      pick (b.bind PartialFeatureSet.swagger)
        (a.bind PartialFeatureSet.swagger) := by
  cases a <;> cases b <;> rfl

theorem optMergeFeatures_bind_redis (a b : Option PartialFeatureSet) :
    (optMergeFeatures a b).bind PartialFeatureSet.redis =
      pick (b.bind PartialFeatureSet.redis)
        (a.bind PartialFeatureSet.redis) := by
  cases a <;> cases b <;> rfl

theorem optMergeDatabase_bind_type (a b : Option PartialDatabaseConfig) :
    (optMergeDatabase a b).bind PartialDatabaseConfig.type =
      pick (b.bind PartialDatabaseConfig.type)
        (a.bind PartialDatabaseConfig.type) := by
  cases a <;> cases b <;> rfl

theorem optMergeDatabase_bind_host (a b : Option PartialDatabaseConfig) :
    (optMergeDatabase a b).bind PartialDatabaseConfig.host =
      pick (b.bind PartialDatabaseConfig.host)
        (a.bind PartialDatabaseConfig.host) := by
  cases a <;> cases b <;> rfl

theorem optMergeDatabase_bind_port (a b : Option PartialDatabaseConfig) :
    (optMergeDatabase a b).bind PartialDatabaseConfig.port =
      pick (b.bind PartialDatabaseConfig.port)
        (a.bind PartialDatabaseConfig.port) := by
  cases a <;> cases b <;> rfl

theorem optMergeDatabase_bind_database (a b : Option PartialDatabaseConfig) :
    (optMergeDatabase a b).bind PartialDatabaseConfig.database =
      pick (b.bind PartialDatabaseConfig.database)
        (a.bind PartialDatabaseConfig.database) := by
  cases a <;> cases b <;> rfl

theorem optMergeDatabase_bind_username (a b : Option PartialDatabaseConfig) :
    (optMergeDatabase a b).bind PartialDatabaseConfig.username =
      pick (b.bind PartialDatabaseConfig.username)
        (a.bind PartialDatabaseConfig.username) := by
  cases a <;> cases b <;> rfl

theorem optMergeDatabase_bind_password (a b : Option PartialDatabaseConfig) :
    (optMergeDatabase a b).bind PartialDatabaseConfig.password =
      pick (b.bind PartialDatabaseConfig.password)
        (a.bind PartialDatabaseConfig.password) := by
  cases a <;> cases b <;> rfl

theorem optMergeCache_bind_type (a b : Option PartialCacheConfig) :
    (optMergeCache a b).bind PartialCacheConfig.type =
      pick (b.bind PartialCacheConfig.type)
        (a.bind PartialCacheConfig.type) := by
  cases a <;> cases b <;> rfl

theorem optMergeCache_bind_host (a b : Option PartialCacheConfig) :
    (optMergeCache a b).bind PartialCacheConfig.host =
      pick (b.bind PartialCacheConfig.host)
        (a.bind PartialCacheConfig.host) := by
  cases a <;> cases b <;> rfl

theorem optMergeCache_bind_port (a b : Option PartialCacheConfig) :
    (optMergeCache a b).bind PartialCacheConfig.port =
      pick (b.bind PartialCacheConfig.port)
        (a.bind PartialCacheConfig.port) := by
  cases a <;> cases b <;> rfl

theorem optMergeCache_bind_password (a b : Option PartialCacheConfig) :
    (optMergeCache a b).bind PartialCacheConfig.password =
      pick (b.bind PartialCacheConfig.password)
        (a.bind PartialCacheConfig.password) := by
  cases a <;> cases b <;> rfl

theorem optMergeCache_bind_database (a b : Option PartialCacheConfig) :
    (optMergeCache a b).bind PartialCacheConfig.database =
      pick (b.bind PartialCacheConfig.database)
        (a.bind PartialCacheConfig.database) := by
  cases a <;> cases b <;> rfl

theorem optMergeAuth_bind_type (a b : Option PartialAuthConfig) :
    (optMergeAuth a b).bind PartialAuthConfig.type =
      pick (b.bind PartialAuthConfig.type) (a.bind PartialAuthConfig.type) := by
  cases a <;> cases b <;> rfl

theorem optMergeAuth_bind_secret (a b : Option PartialAuthConfig) :
    (optMergeAuth a b).bind PartialAuthConfig.secret =
      pick (b.bind PartialAuthConfig.secret)
        (a.bind PartialAuthConfig.secret) := by
  cases a <;> cases b <;> rfl

theorem optMergeAuth_bind_expiresIn (a b : Option PartialAuthConfig) :
    (optMergeAuth a b).bind PartialAuthConfig.expiresIn =
      pick (b.bind PartialAuthConfig.expiresIn)
        (a.bind PartialAuthConfig.expiresIn) := by
  cases a <;> cases b <;> rfl

theorem listIsEmpty_append {α : Type} (l1 l2 : List α) :
    (l1 ++ l2).isEmpty = (l1.isEmpty && l2.isEmpty) := by
  cases l1 <;> simp [List.isEmpty]

theorem checkList_isEmpty (ok : Bool) (msg : String) :
    (checkList ok msg).isEmpty = ok := by
  cases ok <;> rfl

theorem nameCheck_isEmpty (b : Bool) (e : ValidationError) :
    (nameCheck b e).isEmpty = !b := by
  cases b <;> rfl

theorem nameCheck_any (b : Bool) (e : ValidationError)
    (p : ValidationError → Bool) : (nameCheck b e).any p = (b && p e) := by
  cases b <;> simp [nameCheck]

theorem dropWhile_eq_self_of_none (p : Char → Bool) (l : List Char)
    (h : ∀ c ∈ l, p c = false) : l.dropWhile p = l := by
  cases l with
  | nil => rfl
  | cons a t => simp [List.dropWhile, h a (List.mem_cons_self a t)]

theorem jsTrimList_eq_self (cs : List Char)
    (h : ∀ c ∈ cs, isJsWhitespace c = false) : jsTrimList cs = cs := by
  unfold jsTrimList
  rw [dropWhile_eq_self_of_none _ _ h,
    dropWhile_eq_self_of_none _ _ (fun c hc => h c (List.mem_reverse.mp hc)),
    List.reverse_reverse]

theorem lowerNameChar_not_space (c : Char) (h : isLowerNameChar c = true) :
    isJsWhitespace c = false := by
  by_contra hc
  rw [Bool.not_eq_false] at hc
  simp only [isJsWhitespace, Bool.or_eq_true, beq_iff_eq] at hc
  rcases hc with ((rfl | rfl) | rfl) | rfl <;> exact absurd h (by decide)

theorem lower_nameCharCI (c : Char) (h : isLowerNameChar c = true) :
    isNameCharCI c = true := by
  simp [isNameCharCI, h]

theorem not_jsPortBad (p : Int) :
    (!jsPortBad (some p)) = portInRange (some p) := by
  simp only [jsPortBad, portInRange]
  by_cases h1 : p < 1 <;> by_cases h2 : p > 65535 <;>
    by_cases h3 : 1 ≤ p <;> by_cases h4 : p ≤ 65535 <;> simp_all <;> omega

theorem databaseErrors_isEmpty (db : Option PartialDatabaseConfig)
    (h : dbPortPresent db = true) :
    (databaseErrors db).isEmpty = dbSpecOk db := by
  rcases db with _ | d
  · rfl
  · rcases hp : d.port with _ | p
    · simp [dbPortPresent, hp] at h
    · simp [databaseErrors, dbSpecOk, listIsEmpty_append, checkList_isEmpty,
        hp, not_jsPortBad]

theorem cacheErrors_isEmpty (ca : Option PartialCacheConfig)
    (h : cachePortPresent ca = true) :
    (cacheErrors ca).isEmpty = cacheSpecOk ca := by
  rcases ca with _ | c
  · rfl
  · rcases hp : c.port with _ | p
    · simp [cachePortPresent, hp] at h
    · simp [cacheErrors, cacheSpecOk, listIsEmpty_append, checkList_isEmpty,
        hp, not_jsPortBad]

theorem authErrors_isEmpty (au : Option PartialAuthConfig) :
    (authErrors au).isEmpty = authSpecOk au := by
  rcases au with _ | a
  · rfl
  · simp [authErrors, authSpecOk, listIsEmpty_append, checkList_isEmpty]

/-! ### Concrete fragments for the spec's worked examples -/

/-- Spec example C1: `commandLine.features = {redis: true}`. -/
def clFeatureFrag : PartialProjectConfiguration :=
  { emptyPartialConfig with
    features := some { emptyPartialFeatureSet with redis := some true } }

/-- Spec example C1: `configFile.features = {cors: false, redis: false}`. -/
def cfFeatureFrag : PartialProjectConfiguration :=
  { emptyPartialConfig with
    features := some
      { emptyPartialFeatureSet with cors := some false, redis := some false } }

/-- Spec example C3: `commandLine = {template: "api"}`. -/
def clScalarFrag : PartialProjectConfiguration :=
  { emptyPartialConfig with template := some "api" }

/-- Spec example C3: `configFile = {template: "basic", typescript: false}`. -/
def cfScalarFrag : PartialProjectConfiguration :=
  { emptyPartialConfig with template := some "basic", typescript := some false }

/-- Spec example C3: `interactive = {template: "basic", typescript: true,
packageManager: "npm"}`. -/
def iaScalarFrag : PartialProjectConfiguration :=
  { emptyPartialConfig with
    template := some "basic"
    typescript := some true
    packageManager := some "npm" }

/-- A nested sub-key of the `features` object of a fragment (`none` when the
object or the sub-key is absent). -/
def featKey (k : PartialFeatureSet → Option Bool)
    (p : PartialProjectConfiguration) : Option Bool :=
  p.features.bind k

/-- A nested sub-key of the `database` object of a fragment. -/
def dbKey {α : Type} (k : PartialDatabaseConfig → Option α)
    (p : PartialProjectConfiguration) : Option α :=
  p.database.bind k

/-- A nested sub-key of the `cache` object of a fragment. -/
def cacheKey {α : Type} (k : PartialCacheConfig → Option α)
    (p : PartialProjectConfiguration) : Option α :=
  p.cache.bind k

/-- A nested sub-key of the `authentication` object of a fragment. -/
def authKey (k : PartialAuthConfig → Option String)
    (p : PartialProjectConfiguration) : Option String :=
  p.authentication.bind k

/-- The fixed-priority resolution of one (sub-)key across the three sources:
command line over config file over interactive. -/
def prioritizedKey {α : Type} (f : PartialProjectConfiguration → Option α)
    (cl cf ia : PartialProjectConfiguration) : Option α :=
  pick (f cl) (pick (f cf) (f ia))

/-! ### Claims -/

/-- C1: For each of the four nested-object fields (`features`, `database`,
`cache`, `authentication`), the three-source merge is a shallow per-sub-key
union under the priority command line > config file > interactive: a
higher-priority source overrides exactly the sub-keys it defines and every
sibling sub-key defined only by a lower-priority source survives. In
particular, with `commandLine.features = {redis: true}` and
`configFile.features = {cors: false, redis: false}`, the merged features have
`redis = true` and `cors = false`. -/
theorem nested_merge_per_sub_key (cl cf ia : PartialProjectConfiguration) :
    (featKey PartialFeatureSet.logging (applyConfigurationPriority
        ⟨cl, cf, ia⟩) =
      prioritizedKey (featKey PartialFeatureSet.logging) cl cf ia) ∧
    (featKey PartialFeatureSet.cors (applyConfigurationPriority ⟨cl, cf, ia⟩) =
      prioritizedKey (featKey PartialFeatureSet.cors) cl cf ia) ∧
    (featKey PartialFeatureSet.helmet (applyConfigurationPriority
        ⟨cl, cf, ia⟩) =
      prioritizedKey (featKey PartialFeatureSet.helmet) cl cf ia) ∧
    (featKey PartialFeatureSet.rateLimit (applyConfigurationPriority
        ⟨cl, cf, ia⟩) =
      prioritizedKey (featKey PartialFeatureSet.rateLimit) cl cf ia) ∧
    (featKey PartialFeatureSet.swagger (applyConfigurationPriority
        ⟨cl, cf, ia⟩) =
      prioritizedKey (featKey PartialFeatureSet.swagger) cl cf ia) ∧
    (featKey PartialFeatureSet.redis (applyConfigurationPriority
        ⟨cl, cf, ia⟩) =
      prioritizedKey (featKey PartialFeatureSet.redis) cl cf ia) ∧
    (dbKey PartialDatabaseConfig.type (applyConfigurationPriority
        ⟨cl, cf, ia⟩) =
      prioritizedKey (dbKey PartialDatabaseConfig.type) cl cf ia) ∧
    (dbKey PartialDatabaseConfig.host (applyConfigurationPriority
        ⟨cl, cf, ia⟩) =
      prioritizedKey (dbKey PartialDatabaseConfig.host) cl cf ia) ∧
    (dbKey PartialDatabaseConfig.port (applyConfigurationPriority
        ⟨cl, cf, ia⟩) =
      prioritizedKey (dbKey PartialDatabaseConfig.port) cl cf ia) ∧
    (dbKey PartialDatabaseConfig.database (applyConfigurationPriority
        ⟨cl, cf, ia⟩) =
      prioritizedKey (dbKey PartialDatabaseConfig.database) cl cf ia) ∧
    (dbKey PartialDatabaseConfig.username (applyConfigurationPriority
        ⟨cl, cf, ia⟩) =
      prioritizedKey (dbKey PartialDatabaseConfig.username) cl cf ia) ∧
    (dbKey PartialDatabaseConfig.password (applyConfigurationPriority
        ⟨cl, cf, ia⟩) =
      prioritizedKey (dbKey PartialDatabaseConfig.password) cl cf ia) ∧
    (cacheKey PartialCacheConfig.type (applyConfigurationPriority
        ⟨cl, cf, ia⟩) =
      prioritizedKey (cacheKey PartialCacheConfig.type) cl cf ia) ∧
    (cacheKey PartialCacheConfig.host (applyConfigurationPriority
        ⟨cl, cf, ia⟩) =
      prioritizedKey (cacheKey PartialCacheConfig.host) cl cf ia) ∧
    (cacheKey PartialCacheConfig.port (applyConfigurationPriority
        ⟨cl, cf, ia⟩) =
      prioritizedKey (cacheKey PartialCacheConfig.port) cl cf ia) ∧
    (cacheKey PartialCacheConfig.password (applyConfigurationPriority
        ⟨cl, cf, ia⟩) =
      prioritizedKey (cacheKey PartialCacheConfig.password) cl cf ia) ∧
    (cacheKey PartialCacheConfig.database (applyConfigurationPriority
        ⟨cl, cf, ia⟩) =
      prioritizedKey (cacheKey PartialCacheConfig.database) cl cf ia) ∧
    (authKey PartialAuthConfig.type (applyConfigurationPriority
        ⟨cl, cf, ia⟩) =
      prioritizedKey (authKey PartialAuthConfig.type) cl cf ia) ∧
    (authKey PartialAuthConfig.secret (applyConfigurationPriority
        ⟨cl, cf, ia⟩) =
      prioritizedKey (authKey PartialAuthConfig.secret) cl cf ia) ∧
    (authKey PartialAuthConfig.expiresIn (applyConfigurationPriority
        ⟨cl, cf, ia⟩) =
      prioritizedKey (authKey PartialAuthConfig.expiresIn) cl cf ia) ∧
    featKey PartialFeatureSet.redis (applyConfigurationPriority
      ⟨clFeatureFrag, cfFeatureFrag, emptyPartialConfig⟩) = some true ∧
    featKey PartialFeatureSet.cors (applyConfigurationPriority
      ⟨clFeatureFrag, cfFeatureFrag, emptyPartialConfig⟩) = some false := by
  refine ⟨?_, ?_, ?_, ?_, ?_, ?_, ?_, ?_, ?_, ?_, ?_, ?_, ?_, ?_, ?_, ?_, ?_,
    ?_, ?_, ?_, ?_, ?_⟩ <;>
  first
  | decide
  | simp [featKey, dbKey, cacheKey, authKey, prioritizedKey,
      applyConfigurationPriority, mergeConfig, emptyPartialConfig,
      optMergeFeatures_bind_logging, optMergeFeatures_bind_cors,
      optMergeFeatures_bind_helmet, optMergeFeatures_bind_rateLimit,
      optMergeFeatures_bind_swagger, optMergeFeatures_bind_redis,
      optMergeDatabase_bind_type, optMergeDatabase_bind_host,
      optMergeDatabase_bind_port, optMergeDatabase_bind_database,
      optMergeDatabase_bind_username, optMergeDatabase_bind_password,
      optMergeCache_bind_type, optMergeCache_bind_host,
      optMergeCache_bind_port, optMergeCache_bind_password,
      optMergeCache_bind_database, optMergeAuth_bind_type,
      optMergeAuth_bind_secret, optMergeAuth_bind_expiresIn, pick_none]

/-- C3: Each scalar configuration field (`template`, `typescript`,
`packageManager`) is resolved by the fixed priority command line >
config file > interactive: a defined higher-priority value fully overwrites a
lower-priority one, and an undefined field never overwrites a defined one. In
particular, with `commandLine = {template: "api"}`,
`configFile = {template: "basic", typescript: false}` and
`interactive = {template: "basic", typescript: true, packageManager: "npm"}`,
the merge yields `template = "api"`, `typescript = false` and
`packageManager = "npm"`. -/
theorem scalar_merge_priority (cl cf ia : PartialProjectConfiguration) :
    (applyConfigurationPriority ⟨cl, cf, ia⟩).template =
      pick cl.template (pick cf.template ia.template) ∧
    (applyConfigurationPriority ⟨cl, cf, ia⟩).typescript =
      pick cl.typescript (pick cf.typescript ia.typescript) ∧
    (applyConfigurationPriority ⟨cl, cf, ia⟩).packageManager =
      pick cl.packageManager (pick cf.packageManager ia.packageManager) ∧
    (applyConfigurationPriority
      ⟨clScalarFrag, cfScalarFrag, iaScalarFrag⟩).template = some "api" ∧
    (applyConfigurationPriority
      ⟨clScalarFrag, cfScalarFrag, iaScalarFrag⟩).typescript = some false ∧
    (applyConfigurationPriority
      ⟨clScalarFrag, cfScalarFrag, iaScalarFrag⟩).packageManager =
        some "npm" := by
  refine ⟨?_, ?_, ?_, ?_, ?_, ?_⟩ <;>
  first
  | decide
  | simp [applyConfigurationPriority, mergeConfig, emptyPartialConfig,
      pick_none]

/-- C7: `suggestValidName` is a pure function applying, in order,
lowercasing, replacement of disallowed characters by `-`, stripping of
leading `.`/`_`, stripping of trailing `.`/`-`, collapsing of separator runs
into one `-`, the `my-koa-app` fallback on an empty result, and the `app-`
prefix on a leading digit; in particular
`suggestValidName "My--App!" = "my-app"`. -/
theorem suggestValidName_spec :
    suggestValidName "My--App!" = "my-app" ∧
    suggestValidName "" = "my-koa-app" ∧
    suggestValidName "9abc" = "app-9abc" := by
  refine ⟨?_, ?_, ?_⟩ <;> rfl

/-- C8: `mergeConfigurations` is a pure function of its inputs (the embedding
carries no state across calls), so two calls with identical project name,
command-line options, config-file content and interactive answers return
equal configurations. -/
theorem mergeConfigurations_deterministic (projectName : String)
    (commandLineOptions : CommandLineOptions)
    (configFileData : Option ConfigFileFormat)
    (interactiveAnswers : Option PromptAnswers) :
    mergeConfigurations projectName commandLineOptions configFileData
        interactiveAnswers =
      mergeConfigurations projectName commandLineOptions configFileData
        interactiveAnswers := rfl

/-- C10: The normalized command-line fragment defines at most `template`,
`typescript` and `packageManager`: its `name`, `features`, `database`,
`cache` and `authentication` are always absent, so merging it over any
accumulated target (as the last `mergeConfig` step does) never sets or
overrides any of the four nested fields. -/
theorem commandLine_frame (options : CommandLineOptions)
    (t : PartialProjectConfiguration) :
    (convertCommandLineOptions options).name = none ∧
    (convertCommandLineOptions options).features = none ∧
    (convertCommandLineOptions options).database = none ∧
    (convertCommandLineOptions options).cache = none ∧
    (convertCommandLineOptions options).authentication = none ∧
    (mergeConfig t (convertCommandLineOptions options)).features =
      t.features ∧
    (mergeConfig t (convertCommandLineOptions options)).database =
      t.database ∧
    (mergeConfig t (convertCommandLineOptions options)).cache = t.cache ∧
    (mergeConfig t (convertCommandLineOptions options)).authentication =
      t.authentication :=
  ⟨rfl, rfl, rfl, rfl, rfl, rfl, rfl, rfl, rfl⟩

/-- C4: After the three-way merge, each still-undefined field of the final
configuration receives exactly its fixed default (`template = "basic"`,
`packageManager = "pnpm"`, `typescript = true`), and each feature sub-key is
the fixed default (`logging`/`cors`/`helmet` true, `rateLimit`/`swagger`/
`redis` false) individually overridden by any merged-in value. -/
theorem merge_final_defaults (projectName : String)
    (commandLineOptions : CommandLineOptions)
    (configFileData : Option ConfigFileFormat)
    (interactiveAnswers : Option PromptAnswers) :
    ((mergedOf commandLineOptions configFileData
        interactiveAnswers).template = none →
      (mergeConfigurations projectName commandLineOptions configFileData
        interactiveAnswers).template = "basic") ∧
    ((mergedOf commandLineOptions configFileData
        interactiveAnswers).packageManager = none →
      (mergeConfigurations projectName commandLineOptions configFileData
        interactiveAnswers).packageManager = "pnpm") ∧
    ((mergedOf commandLineOptions configFileData
        interactiveAnswers).typescript = none →
      (mergeConfigurations projectName commandLineOptions configFileData
        interactiveAnswers).typescript = true) ∧
    (mergeConfigurations projectName commandLineOptions configFileData
        interactiveAnswers).features.logging =
      ((mergedOf commandLineOptions configFileData
        interactiveAnswers).features.bind PartialFeatureSet.logging).getD
        true ∧
    (mergeConfigurations projectName commandLineOptions configFileData
        interactiveAnswers).features.cors =
      ((mergedOf commandLineOptions configFileData
        interactiveAnswers).features.bind PartialFeatureSet.cors).getD true ∧
    (mergeConfigurations projectName commandLineOptions configFileData
        interactiveAnswers).features.helmet =
      ((mergedOf commandLineOptions configFileData
        interactiveAnswers).features.bind PartialFeatureSet.helmet).getD
        true ∧
    (mergeConfigurations projectName commandLineOptions configFileData
        interactiveAnswers).features.rateLimit =
      ((mergedOf commandLineOptions configFileData
        interactiveAnswers).features.bind PartialFeatureSet.rateLimit).getD
        false ∧
    (mergeConfigurations projectName commandLineOptions configFileData
        interactiveAnswers).features.swagger =
      ((mergedOf commandLineOptions configFileData
        interactiveAnswers).features.bind PartialFeatureSet.swagger).getD
        false ∧
    (mergeConfigurations projectName commandLineOptions configFileData
        interactiveAnswers).features.redis =
      ((mergedOf commandLineOptions configFileData
        interactiveAnswers).features.bind PartialFeatureSet.redis).getD
        false := by
  refine ⟨fun h => ?_, fun h => ?_, fun h => ?_, rfl, rfl, rfl, rfl, rfl,
    rfl⟩ <;>
  simp [mergeConfigurations, h, jsOrStr]

/-- Witness for C4: at empty sources every scalar is still undefined after
the merge and the final configuration carries the fixed defaults. -/
theorem merge_final_defaults_witness :
    (mergeConfigurations "demo" ⟨none, none, none, none, none, none, none⟩
      none none).template = "basic" ∧
    (mergeConfigurations "demo" ⟨none, none, none, none, none, none, none⟩
      none none).packageManager = "pnpm" ∧
    (mergeConfigurations "demo" ⟨none, none, none, none, none, none, none⟩
      none none).typescript = true :=
  have h := merge_final_defaults "demo"
    ⟨none, none, none, none, none, none, none⟩ none none
  ⟨h.1 rfl, h.2.1 rfl, h.2.2.1 rfl⟩

/-- The config-file fragment `{features: {}}`: the `features` object is
present but every sub-key of it is unset. -/
def cfFeaturesOnly : ConfigFileFormat :=
  ⟨none, none, none, some emptyPartialFeatureSet, none, none, none, none,
    none⟩

/-- C2 counterexample: the claim says an unset sub-key of a present
config-file `features` object is omitted, not defaulted, by normalization;
but on `{features: {}}`, whose `cors` sub-key is unset,
`convertConfigFileFormat` produces `cors = true` — a synthesized default. -/
theorem normalization_defaults_counterexample :
    cfFeaturesOnly.features = some emptyPartialFeatureSet ∧
    emptyPartialFeatureSet.cors = none ∧
    (convertConfigFileFormat cfFeaturesOnly).features.bind
      PartialFeatureSet.cors = some true :=
  ⟨rfl, rfl, rfl⟩

/-- C2 amended: top-level unset fields are omitted by config-file
normalization (never defaulted), but a nested object that is present has its
unset sub-keys filled with fixed defaults (features:
logging/cors/helmet = true, rateLimit/swagger/redis = false; database:
mysql/localhost/3306/myapp; cache: redis/localhost/6379/0; authentication:
jwt/7d); and the final configuration attaches `database`, `cache` and
`authentication` exactly as the merge produced them — absent when the merge
left them absent, with no synthesized defaults. -/
theorem normalization_omission_amended (cf : ConfigFileFormat)
    (projectName : String) (commandLineOptions : CommandLineOptions)
    (configFileData : Option ConfigFileFormat)
    (interactiveAnswers : Option PromptAnswers) :
    (cf.template = none → (convertConfigFileFormat cf).template = none) ∧
    (cf.typescript = none → (convertConfigFileFormat cf).typescript = none) ∧
    (cf.packageManager = none →
      (convertConfigFileFormat cf).packageManager = none) ∧
    (cf.features = none → (convertConfigFileFormat cf).features = none) ∧
    (cf.database = none → (convertConfigFileFormat cf).database = none) ∧
    (cf.cache = none → (convertConfigFileFormat cf).cache = none) ∧
    (cf.authentication = none →
      (convertConfigFileFormat cf).authentication = none) ∧
    (∀ f, cf.features = some f → (convertConfigFileFormat cf).features =
      some ⟨some (f.logging.getD true), some (f.cors.getD true),
        some (f.helmet.getD true), some (f.rateLimit.getD false),
        some (f.swagger.getD false), some (f.redis.getD false)⟩) ∧
    (∀ d, cf.database = some d → (convertConfigFileFormat cf).database =
      some ⟨some (jsOrStr d.type "mysql"), some (jsOrStr d.host "localhost"),
        some (jsOrInt d.port 3306), some (jsOrStr d.database "myapp"), none,
        none⟩) ∧
    (∀ c, cf.cache = some c → (convertConfigFileFormat cf).cache =
      some ⟨some "redis", some (jsOrStr c.host "localhost"),
        some (jsOrInt c.port 6379), none, some (jsOrInt c.database 0)⟩) ∧
    (∀ a, cf.authentication = some a →
      (convertConfigFileFormat cf).authentication =
        some ⟨some (jsOrStr a.type "jwt"), none,
          some (jsOrStr a.expiresIn "7d")⟩) ∧
    (mergeConfigurations projectName commandLineOptions configFileData
        interactiveAnswers).database =
      (mergedOf commandLineOptions configFileData
        interactiveAnswers).database ∧
    (mergeConfigurations projectName commandLineOptions configFileData
        interactiveAnswers).cache =
      (mergedOf commandLineOptions configFileData interactiveAnswers).cache ∧
    (mergeConfigurations projectName commandLineOptions configFileData
        interactiveAnswers).authentication =
      (mergedOf commandLineOptions configFileData
        interactiveAnswers).authentication := by
  refine ⟨fun h => ?_, fun h => ?_, fun h => ?_, fun h => ?_, fun h => ?_,
    fun h => ?_, fun h => ?_, fun f h => ?_, fun d h => ?_, fun c h => ?_,
    fun a h => ?_, rfl, rfl, rfl⟩ <;>
  simp [convertConfigFileFormat, h]

/-- Witness for C2's amended claim: on `{features: {}}` the unset top-level
fields stay omitted, the present features object is default-filled, and at
empty sources the final configuration has no database attached. -/
theorem normalization_omission_amended_witness :
    (convertConfigFileFormat cfFeaturesOnly).template = none ∧
    (convertConfigFileFormat cfFeaturesOnly).features =
      some ⟨some true, some true, some true, some false, some false,
        some false⟩ ∧
    (mergeConfigurations "demo" ⟨none, none, none, none, none, none, none⟩
      none none).database = none := by
  have h := normalization_omission_amended cfFeaturesOnly "demo"
    ⟨none, none, none, none, none, none, none⟩ none none
  obtain ⟨h1, _, _, _, _, _, _, h8, _, _, _, h12, _, _⟩ := h
  exact ⟨h1 rfl, h8 emptyPartialFeatureSet rfl, h12.trans rfl⟩

/-- C5: `validateConfiguration` runs all of its checks independently and
collects every violation; the result is valid exactly when the collected
error list is empty; and on configurations whose attached database/cache
blocks carry their mandatory `port` sub-key (as the declared
`ProjectConfiguration` type guarantees), validity is exactly the spec's
conjunction of rules. On the spec's example with `database.port = 99999` the
result is invalid with the one error naming the port, and a config violating
three rules at once collects all three errors. -/
theorem validateConfiguration_spec (c : ProjectConfiguration)
    (htot : portsPresent c = true) :
    ((validateConfiguration c).valid = specValidConfig c) ∧
    ((validateConfiguration c).valid =
      (validateConfiguration c).errors.isEmpty) ∧
    (validateConfiguration badPortConfig).valid = false ∧
    (validateConfiguration badPortConfig).errors =
      ["无效的数据库端口: 99999。端口范围: 1-65535"] ∧
    (validateConfiguration multiInvalidConfig).errors.length = 3 := by
  simp only [portsPresent, Bool.and_eq_true] at htot
  obtain ⟨hdb, hca⟩ := htot
  refine ⟨?_, rfl, rfl, rfl, rfl⟩
  simp only [validateConfiguration, specValidConfig, listIsEmpty_append,
    checkList_isEmpty, databaseErrors_isEmpty _ hdb,
    cacheErrors_isEmpty _ hca, authErrors_isEmpty, Bool.and_assoc]

/-- Witness for C5 at the spec's `database.port = 99999` example config. -/
theorem validateConfiguration_spec_witness :
    portsPresent badPortConfig = true ∧
    (validateConfiguration badPortConfig).valid =
      specValidConfig badPortConfig :=
  ⟨rfl, (validateConfiguration_spec badPortConfig rfl).1⟩

/-- C6: every name made of `[a-z0-9._-]` characters, of length 1 to 214,
not reserved (case-insensitively), not starting with `.`/`_`, not ending
with `.`/`-`, and without consecutive `.`/`-`, is accepted by
`validateProjectName`; and for every input the result is valid exactly when
its error list is empty (warnings never affect validity). -/
theorem validateProjectName_valid_names (name : String)
    (h1 : name.data.all isLowerNameChar = true)
    (h2 : 1 ≤ name.data.length)
    (h3 : name.data.length ≤ 214)
    (h4 : reservedNames.contains
      (String.mk (name.data.map jsToLowerChar)) = false)
    (h5 : startsWithDotOrUnderscore name.data = false)
    (h6 : endsWithDotOrDash name.data = false)
    (h7 : hasConsecutiveSeparators name.data = false) :
    (validateProjectName name).valid = true ∧
    ∀ s, (validateProjectName s).valid =
      (validateProjectName s).errors.isEmpty := by
  have hall : ∀ c ∈ name.data, isLowerNameChar c = true := by
    simpa using h1
  have htrim : jsTrimList name.data = name.data :=
    jsTrimList_eq_self _ (fun c hc => lowerNameChar_not_space c (hall c hc))
  constructor
  · have hne : name.data.isEmpty = false := by
      cases hd : name.data with
      | nil => rw [hd] at h2; exact absurd h2 (by decide)
      | cons a t => rfl
    have hci : name.data.all isNameCharCI = true := by
      simp only [List.all_eq_true]
      exact fun c hc => lower_nameCharCI c (hall c hc)
    have hlen1 : decide (name.data.length > 214) = false :=
      decide_eq_false (by omega)
    have hlen2 : decide (name.data.length < 1) = false :=
      decide_eq_false (by omega)
    have hat : (name.data.head? == some '@') = false := by
      cases hd : name.data with
      | nil => rw [hd] at h2; exact absurd h2 (by decide)
      | cons a t =>
        have ha : isLowerNameChar a = true :=
          hall a (by rw [hd]; exact List.mem_cons_self a t)
        by_cases hq : a = '@'
        · subst hq; exact absurd ha (by decide)
        · simp [hq]
    simp [validateProjectName, htrim, hne, listIsEmpty_append,
      nameCheck_isEmpty, hci, hlen1, hlen2, h4, h5, h6, h7, hat]
    refine ⟨h3, ?_, ?_⟩
    · have hlen : name.data.length = name.length := rfl
      omega
    · simpa using h4
  · intro s
    simp only [validateProjectName]
    split <;> rfl

/-- Witness for C6 at the name `my-app`. -/
theorem validateProjectName_valid_names_witness :
    (validateProjectName "my-app").valid = true :=
  (validateProjectName_valid_names "my-app" (by decide) (by decide)
    (by decide) (by decide) (by decide) (by decide) (by decide)).1

/-- C9: every name whose trimmed form starts with `@` fails validation with
an `INVALID_CHARACTERS` error (the character class admits neither `@` nor
`/`), and when the name fully matches the `@scope/name` pattern no
`INVALID_SCOPE_FORMAT` error is added — so no scoped package name is ever
accepted. -/
theorem scoped_names_always_invalid (name : String) (cs : List Char)
    (h : jsTrimList name.data = '@' :: cs) :
    (validateProjectName name).valid = false ∧
    errHasType (validateProjectName name).errors "INVALID_CHARACTERS" =
      true ∧
    (scopeMatch ('@' :: cs) = true →
      errHasType (validateProjectName name).errors "INVALID_SCOPE_FORMAT" =
        false) := by
  have hat : isNameCharCI '@' = false := by decide
  have hci : (('@' :: cs).all isNameCharCI) = false := by
    simp [List.all_cons, hat]
  refine ⟨?_, ?_, fun hs => ?_⟩
  · simp [validateProjectName, h, listIsEmpty_append, nameCheck_isEmpty, hci]
  · simp [validateProjectName, h, errHasType, List.any_append, nameCheck_any,
      hci]
  · simp [validateProjectName, h, errHasType, List.any_append, nameCheck_any,
      hs]

/-- Witness for C9 at the well-formed scoped name `@scope/pkg`. -/
theorem scoped_names_always_invalid_witness :
    (validateProjectName "@scope/pkg").valid = false ∧
    errHasType (validateProjectName "@scope/pkg").errors
      "INVALID_SCOPE_FORMAT" = false := by
  have h := scoped_names_always_invalid "@scope/pkg" "scope/pkg".data rfl
  exact ⟨h.1, h.2.2 rfl⟩

end KoaInit
